import Mathlib

/-!
Verification development for the UTIAS multi-robot dataset extractor
(`src/data_extractor.cpp`).

The C++ code is shallowly embedded: each member function of the
`DataExtractor` class becomes a Lean function over an explicit `State`,
file access becomes a pure `FS` oracle (directory existence plus the
lines of each openable file), and C++ `double` values are modelled as
exact rationals `ℚ` (the source only parses decimal literals and
compares them; no claim depends on binary floating-point rounding).
All rational values are built through `mkRat`-based operations
(`qadd`, `qsub`) so that every definition evaluates inside the kernel;
bridge lemmas relate them to the ordinary `+` and `-` of `ℚ`.

C++ behaviours modelled explicitly:
 * `std::string::find` returns `npos = 2^64 - 1` when absent, and the
   source increments such a position, wrapping to `0` (`inc64`).
 * `std::string::substr(pos, count)` throws `std::out_of_range` when
   `pos` exceeds the string length; `count` may overshoot.
 * `std::stoi`/`std::stod` skip leading whitespace, accept an optional
   sign, require at least one digit and ignore trailing garbage;
   on failure the exception escapes the loader (`Err.parseError`).
   `stod` is modelled on the plain decimal part of the `strtod`
   grammar (no exponents or hex, which the dataset never uses);
   `stoi` is modelled without its range check (never hit here).
 * a loader that returns `false` after printing to `cerr` is a
   `Outcome.failed`, a loader that lets an exception escape is a
   `Outcome.thrown`; `setDataSet`'s own `throw std::runtime_error`
   calls are `Outcome.thrown` with the matching error kind.
-/

namespace DataExtractor

/-- One line of a text file, as the character list `std::getline` yields. -/
abbrev Line := List Char

/-- Error kinds of the extractor, as named by the specification.
`noDataset` is the "Please specify a dataset" early return of
`readBarcodes`; `extractionFailed` is the final
"Unable to extract data from dataset" `runtime_error` of `setDataSet`. -/
inductive Err
  | pathNotFound
  | fileNotFound
  | parseError
  | outOfRange
  | capacityExceeded
  | integrityError
  | uninitializedAccess
  | extractionFailed
  | noDataset
deriving DecidableEq

deriving instance DecidableEq for Except

/-- How one call of a sub-loader ends: normal `true` return, a
`cerr`-and-`return false` failure, or a C++ exception escaping it. -/
inductive Outcome
  | ok
  | failed (e : Err)
  | thrown (e : Err)
deriving DecidableEq

/-- Returns `true` exactly for the normal (`return true`) outcome. -/
def Outcome.isOk : Outcome → Bool
  | Outcome.ok => true
  | _ => false

/-- Models `std::string::npos` (64-bit `size_t`). -/
def npos : Nat := 2 ^ 64 - 1

/-- Models the `size_t` increment with 64-bit wrap-around: `++end_index` /
`end_index + 1` applied to `npos` yields `0`. -/
def inc64 (n : Nat) : Nat := (n + 1) % 2 ^ 64

/-- Index of the first occurrence of `c` in the list, if any. -/
def firstIdx (c : Char) : List Char → Option Nat
  | [] => none
  | a :: as => if a = c then some 0 else (firstIdx c as).map (fun n => n + 1)

/-- Models `std::string::find(c, pos)`: first position `≥ pos` holding `c`,
or `npos` when there is none. -/
def strFind (l : Line) (c : Char) (pos : Nat) : Nat :=
  match firstIdx c (l.drop pos) with
  | some j => pos + j
  | none => npos

/-- Models `std::string::substr(pos, count)`: throws `std::out_of_range`
when `pos` exceeds the length; `count` is clamped to the remainder. -/
def substr (l : Line) (pos count : Nat) : Except Err Line :=
  if l.length < pos then Except.error Err.outOfRange
  else Except.ok ((l.drop pos).take count)

/-- The whitespace set of `isspace` in the default C locale. -/
def isCppSpace (c : Char) : Bool :=
  c = ' ' || c = '\t' || c = '\n' || c = '\x0b' || c = '\x0c' || c = '\r'

/-- The `line.erase(std::remove(line.begin(), line.end(), ' '), line.end())`
idiom of every loader: it deletes space characters only. -/
def removeSpaces (l : Line) : Line := l.filter (fun c => c != ' ')

/-- Accumulate decimal digits: value so far, digit count, rest. -/
def readNatAux : List Char → Nat → Nat → Nat × Nat × List Char
  | [], acc, k => (acc, k, [])
  | c :: cs, acc, k =>
    if c.isDigit then readNatAux cs (acc * 10 + (c.toNat - 48)) (k + 1)
    else (acc, k, c :: cs)

/-- Optional sign of a C numeric literal: negativity flag and rest. -/
def readSign : List Char → Bool × List Char
  | '-' :: cs => (true, cs)
  | '+' :: cs => (false, cs)
  | cs => (false, cs)

/-- Models `std::stoi`: skip whitespace, optional sign, at least one digit
(else `std::invalid_argument` escapes, `Err.parseError`); trailing
characters are ignored. -/
def stoiE (l : Line) : Except Err Int :=
  let l1 := l.dropWhile isCppSpace
  let p := readSign l1
  let r := readNatAux p.2 0 0
  if r.2.1 = 0 then Except.error Err.parseError
  else Except.ok (if p.1 then -(r.1 : Int) else (r.1 : Int))

/-- Models `std::stod` on the decimal part of the `strtod` grammar:
whitespace, sign, digits, optional point and fraction digits; at least
one digit overall, trailing characters ignored. The result is the
exact rational value of the literal. -/
def stodE (l : Line) : Except Err ℚ :=
  let l1 := l.dropWhile isCppSpace
  let p := readSign l1
  let r := readNatAux p.2 0 0
  match r.2.2 with
  | '.' :: l4 =>
    let f := readNatAux l4 0 0
    if r.2.1 = 0 ∧ f.2.1 = 0 then Except.error Err.parseError
    else
      let n : Int := (r.1 : Int) * ((10 : Nat) ^ f.2.1 : Nat) + (f.1 : Int)
      Except.ok (mkRat (if p.1 then -n else n) ((10 : Nat) ^ f.2.1))
  | _ =>
    if r.2.1 = 0 then Except.error Err.parseError
    else Except.ok (mkRat (if p.1 then -(r.1 : Int) else (r.1 : Int)) 1)

/-- Kernel-computable addition on `ℚ` (equal to `+`, see `qadd_eq`). -/
def qadd (a b : ℚ) : ℚ := mkRat (a.num * (b.den : Int) + b.num * (a.den : Int)) (a.den * b.den)

/-- Kernel-computable subtraction on `ℚ` (equal to `-`, see `qsub_eq`). -/
def qsub (a b : ℚ) : ℚ := mkRat (a.num * (b.den : Int) - b.num * (a.den : Int)) (a.den * b.den)

theorem qadd_eq (a b : ℚ) : qadd a b = a + b := (Rat.add_def' a b).symm

theorem qsub_eq (a b : ℚ) : qsub a b = a - b := (Rat.sub_def' a b).symm

/-- Modelled from the spec: the fixed capacities `TOTAL_BARCODES`,
`TOTAL_LANDMARKS` and `TOTAL_ROBOTS` are declared in the header
`include/data_extractor.h`, which is not part of `src/`; the spec only
says the tables are bounded and sized to the dataset (20 detectable
subjects, 15 landmarks, 5 robots in the UTIAS benchmark). No theorem
below depends on the particular values, only on the constants being
fixed. -/
def TOTAL_BARCODES : Nat := 20

/-- Modelled from the spec: fixed maximum of the landmark table (see
`TOTAL_BARCODES`). -/
def TOTAL_LANDMARKS : Nat := 15

/-- Modelled from the spec: the fixed range of robot identities (see
`TOTAL_BARCODES`). -/
def TOTAL_ROBOTS : Nat := 5

/-- A landmark record: `id` and resolved `barcode`, position and the
standard deviations, as assigned field by field in `readLandmarks`. -/
structure Landmark where
  id : Int
  barcode : Int
  x : ℚ
  y : ℚ
  x_std_dev : ℚ
  y_std_dev : ℚ
deriving DecidableEq

/-- One ground-truth pose sample `(time, x, y, orientation)`. -/
structure Groundtruth where
  time : ℚ
  x : ℚ
  y : ℚ
  orientation : ℚ
deriving DecidableEq

/-- One odometry sample `(time, forward_velocity, angular_velocity)`. -/
structure Odometry where
  time : ℚ
  forward_velocity : ℚ
  angular_velocity : ℚ
deriving DecidableEq

/-- One aggregated measurement record: the time of the reading that
created the bucket, plus parallel lists of merged sightings. -/
structure Measurement where
  time : ℚ
  subjects : List Int
  ranges : List ℚ
  bearings : List ℚ
deriving DecidableEq

/-- The `Measurement(time, subject, range, bearing)` constructor:
a record holding a single sighting. -/
def Measurement.single (t : ℚ) (s : Int) (r b : ℚ) : Measurement :=
  { time := t, subjects := [s], ranges := [r], bearings := [b] }

/-- The raw per-robot dataset: one ordered sequence per file kind. -/
structure RawData where
  ground_truth : List Groundtruth
  odometry : List Odometry
  measurements : List Measurement
deriving DecidableEq

/-- One robot's data, mirroring the `Robot` struct (`robot.raw`). -/
structure Robot where
  raw : RawData
deriving DecidableEq

/-- A robot with empty sequences. -/
def Robot.empty : Robot := { raw := { ground_truth := [], odometry := [], measurements := [] } }

/-- The mutable fields of the `DataExtractor` object: the stored
dataset path (`dataset_`, empty until a path passes the existence
check), the fixed-size barcode array (zero-initialised; a zero entry
means "not loaded"), the landmark table and the robot array.
The C++ arrays `landmarks_` and the robot vectors are modelled by the
lists of the entries actually written; stale entries past the last
write of a failed or shorter reload are dropped rather than kept,
which no accessor-visible claim distinguishes. -/
structure State where
  dataset : String
  barcodes : List Int
  landmarks : List Landmark
  robots : List Robot
deriving DecidableEq

/-- A freshly constructed extractor. -/
def initState : State :=
  { dataset := ""
    barcodes := List.replicate TOTAL_BARCODES 0
    landmarks := []
    robots := List.replicate TOTAL_ROBOTS Robot.empty }

/-- The file system the extractor runs against: `dirExists` is the
`stat` call of `setDataSet`; `file` returns the lines of a file that
opens successfully and `none` for one that does not. -/
structure FS where
  dirExists : String → Bool
  file : String → Option (List Line)

/-- Models a `barcodes_[i]`-style read. A C++ out-of-range read is undefined
behaviour; the model returns `0` there and every theorem that touches
an index restricts it to the array bounds. -/
def arrGet (bs : List Int) (i : Int) : Int :=
  if h : 0 ≤ i ∧ i.toNat < bs.length then bs.get ⟨i.toNat, h.2⟩ else 0

/-- Update position `i` of the robot array in place. -/
def updR (rs : List Robot) (i : Nat) (f : Robot → Robot) : List Robot :=
  match rs, i with
  | [], _ => []
  | r :: rest, 0 => f r :: rest
  | r :: rest, Nat.succ n => r :: updR rest n f

/-- The barcode extraction of one stripped line:
`std::stoi(line.substr(line.find('\t', 0)))` — everything after the
first tab; a line without a tab makes `substr(npos)` throw. -/
def barcodeOfLine (l2 : Line) : Except Err Int :=
  (substr l2 (strFind l2 '\t' 0) npos).bind stoiE

/-- The `while (std::getline...)` loop of `readBarcodes`: skip `#`
lines, strip spaces, fail once the row index reaches `TOTAL_BARCODES`,
else store the parsed barcode at the next index. Returns the (possibly
partially overwritten) array and how the loop ended. -/
def readBarcodesLines : List Line → Nat → List Int → List Int × Except Err Unit
  | [], _, bs => (bs, Except.ok ())
  | l :: ls, i, bs =>
    if l.head? = some '#' then readBarcodesLines ls i bs
    else
      let l2 := removeSpaces l
      if TOTAL_BARCODES ≤ i then (bs, Except.error Err.capacityExceeded)
      else
        match barcodeOfLine l2 with
        | Except.error e => (bs, Except.error e)
        | Except.ok v => readBarcodesLines ls (i + 1) (bs.set i v)

/-- Field extraction of one stripped landmark line, in source order:
id (`stoi` of the part before the first tab), the integrity check
`barcodes_[id - 1] == 0`, then x, y, x_std_dev, y_std_dev via the
`substr(start_index, end_index)` / `stod` sequence of the source
(whose `count` argument is really the absolute position of the next
tab — harmless, as `stod` stops at the tab). -/
def readLandmarkLine (bs : List Int) (l2 : Line) : Except Err Landmark := do
  let e1 := strFind l2 '\t' 0
  let id ← stoiE (← substr l2 0 e1)
  if arrGet bs (id - 1) = 0 then
    Except.error Err.integrityError
  else
    let bc := arrGet bs (id - 1)
    let e2 := strFind l2 '\t' (inc64 e1)
    let x ← stodE (← substr l2 e1 e2)
    let e3 := strFind l2 '\t' (inc64 e2)
    let y ← stodE (← substr l2 e2 e3)
    let e4 := strFind l2 '\t' (inc64 e3)
    let xs ← stodE (← substr l2 e3 e4)
    let e5 := strFind l2 '\t' (inc64 e4)
    let ys ← stodE (← substr l2 e4 e5)
    pure { id := id, barcode := bc, x := x, y := y, x_std_dev := xs, y_std_dev := ys }

/-- The line loop of `readLandmarks`: skip comments, strip spaces,
capacity check against `TOTAL_LANDMARKS`, then parse and append. -/
def readLandmarksLines (bs : List Int) : List Line → Nat → List Landmark → List Landmark × Except Err Unit
  | [], _, lms => (lms, Except.ok ())
  | l :: ls, i, lms =>
    if l.head? = some '#' then readLandmarksLines bs ls i lms
    else
      let l2 := removeSpaces l
      if TOTAL_LANDMARKS ≤ i then (lms, Except.error Err.capacityExceeded)
      else
        match readLandmarkLine bs l2 with
        | Except.error e => (lms, Except.error e)
        | Except.ok lm => readLandmarksLines bs ls (i + 1) (lms ++ [lm])

/-- Field extraction of one stripped ground-truth line:
time, x, y, orientation, each via `find('\t', ++end_index)` and
`substr(start_index, end_index)` followed by `stod`. -/
def readGroundTruthLine (l2 : Line) : Except Err Groundtruth := do
  let e1 := strFind l2 '\t' 0
  let t ← stodE (← substr l2 0 e1)
  let e2 := strFind l2 '\t' (inc64 e1)
  let x ← stodE (← substr l2 e1 e2)
  let e3 := strFind l2 '\t' (inc64 e2)
  let y ← stodE (← substr l2 e2 e3)
  let e4 := strFind l2 '\t' (inc64 e3)
  let th ← stodE (← substr l2 e3 e4)
  pure { time := t, x := x, y := y, orientation := th }

/-- The line loop of `readGroundTruth`: skip comments, strip spaces,
parse and `push_back`; a parse exception escapes with the rows read
so far already stored. -/
def readGroundTruthLines : List Line → List Groundtruth → List Groundtruth × Except Err Unit
  | [], acc => (acc, Except.ok ())
  | l :: ls, acc =>
    if l.head? = some '#' then readGroundTruthLines ls acc
    else
      match readGroundTruthLine (removeSpaces l) with
      | Except.error e => (acc, Except.error e)
      | Except.ok row => readGroundTruthLines ls (acc ++ [row])

/-- Field extraction of one stripped odometry line:
time, forward_velocity, angular_velocity. -/
def readOdometryLine (l2 : Line) : Except Err Odometry := do
  let e1 := strFind l2 '\t' 0
  let t ← stodE (← substr l2 0 e1)
  let e2 := strFind l2 '\t' (inc64 e1)
  let v ← stodE (← substr l2 e1 e2)
  let e3 := strFind l2 '\t' (inc64 e2)
  let w ← stodE (← substr l2 e2 e3)
  pure { time := t, forward_velocity := v, angular_velocity := w }

/-- The line loop of `readOdometry`. -/
def readOdometryLines : List Line → List Odometry → List Odometry × Except Err Unit
  | [], acc => (acc, Except.ok ())
  | l :: ls, acc =>
    if l.head? = some '#' then readOdometryLines ls acc
    else
      match readOdometryLine (removeSpaces l) with
      | Except.error e => (acc, Except.error e)
      | Except.ok row => readOdometryLines ls (acc ++ [row])

/-- The aggregation window test of `readMeasurements`:
`index.time >= time - 0.05 && index.time <= time + 0.05`. -/
def inWindow (recordTime t : ℚ) : Bool :=
  decide (qsub t (mkRat 5 100) ≤ recordTime) && decide (recordTime ≤ qadd t (mkRat 5 100))

/-- Append one sighting to an existing record's parallel lists
(`iterator->subjects.push_back(...)` etc.; the record's `time` is
left untouched). -/
def appendSighting (m : Measurement) (s : Int) (r b : ℚ) : Measurement :=
  { m with subjects := m.subjects ++ [s], ranges := m.ranges ++ [r], bearings := m.bearings ++ [b] }

/-- In-place update of the element at position `i`. -/
def modifyAt (ms : List Measurement) (i : Nat) (f : Measurement → Measurement) : List Measurement :=
  match ms, i with
  | [], _ => []
  | m :: rest, 0 => f m :: rest
  | m :: rest, Nat.succ n => m :: modifyAt rest n f

/-- One iteration of the measurement aggregation:
`std::find_if` over the already-aggregated sequence for the first
record whose time lies in the window, then either the in-place
append or a `push_back` of a fresh single-sighting record. -/
def insertMeasurement (ms : List Measurement) (t : ℚ) (s : Int) (r b : ℚ) : List Measurement :=
  match ms.findIdx? (fun m => inWindow m.time t) with
  | some i => modifyAt ms i (fun m => appendSighting m s r b)
  | none => ms ++ [Measurement.single t s r b]

/-- Field extraction of one stripped measurement line:
time (`stod`), subject (`stoi`), range, bearing (`stod`). -/
def readMeasurementLine (l2 : Line) : Except Err (ℚ × Int × ℚ × ℚ) := do
  let e1 := strFind l2 '\t' 0
  let t ← stodE (← substr l2 0 e1)
  let e2 := strFind l2 '\t' (inc64 e1)
  let s ← stoiE (← substr l2 e1 e2)
  let e3 := strFind l2 '\t' (inc64 e2)
  let r ← stodE (← substr l2 e2 e3)
  let e4 := strFind l2 '\t' (inc64 e3)
  let b ← stodE (← substr l2 e3 e4)
  pure (t, s, r, b)

/-- The line loop of `readMeasurements`: skip comments, strip spaces,
parse the four fields, then aggregate into the sequence so far. -/
def readMeasurementsLines : List Line → List Measurement → List Measurement × Except Err Unit
  | [], ms => (ms, Except.ok ())
  | l :: ls, ms =>
    if l.head? = some '#' then readMeasurementsLines ls ms
    else
      match readMeasurementLine (removeSpaces l) with
      | Except.error e => (ms, Except.error e)
      | Except.ok row => readMeasurementsLines ls (insertMeasurement ms row.1 row.2.1 row.2.2.1 row.2.2.2)

/-- Classify how a line loop ended: `stoi`/`stod`/`substr` exceptions
escape the loader (`thrown`), the `cerr`-plus-`return false` branches
(capacity, integrity) and a file that fails to open are `failed`. -/
def mkOutcome : Except Err Unit → Outcome
  | Except.ok _ => Outcome.ok
  | Except.error Err.parseError => Outcome.thrown Err.parseError
  | Except.error Err.outOfRange => Outcome.thrown Err.outOfRange
  | Except.error e => Outcome.failed e

/-- Models `DataExtractor::readBarcodes`: refuse an empty `dataset_`, open
`<dataset>/Barcodes.dat`, run the line loop over the existing array. -/
def readBarcodes (fs : FS) (st : State) : State × Outcome :=
  if st.dataset = "" then (st, Outcome.failed Err.noDataset)
  else
    match fs.file (st.dataset ++ "/Barcodes.dat") with
    | none => (st, Outcome.failed Err.fileNotFound)
    | some ls =>
      let r := readBarcodesLines ls 0 st.barcodes
      ({ st with barcodes := r.1 }, mkOutcome r.2)

/-- Models `DataExtractor::readLandmarks`: open
`<dataset>/Landmark_Groundtruth.dat` and run the line loop, resolving
barcodes against the current array. (No `dataset_` check here.) -/
def readLandmarks (fs : FS) (st : State) : State × Outcome :=
  match fs.file (st.dataset ++ "/Landmark_Groundtruth.dat") with
  | none => (st, Outcome.failed Err.fileNotFound)
  | some ls =>
    let r := readLandmarksLines st.barcodes ls 0 []
    ({ st with landmarks := r.1 }, mkOutcome r.2)

/-- Models `DataExtractor::readGroundTruth`: clear the robot's ground-truth
sequence, then open `<dataset>/Robot<id+1>_Groundtruth.dat` and
repopulate it. -/
def readGroundTruth (fs : FS) (st : State) (robot_id : Nat) : State × Outcome :=
  match fs.file (st.dataset ++ "/Robot" ++ toString (robot_id + 1) ++ "_Groundtruth.dat") with
  | none =>
    ({ st with robots := updR st.robots robot_id (fun r => { r with raw := { r.raw with ground_truth := [] } }) }, Outcome.failed Err.fileNotFound)
  | some ls =>
    let r := readGroundTruthLines ls []
    ({ st with robots := updR st.robots robot_id (fun rb => { rb with raw := { rb.raw with ground_truth := r.1 } }) }, mkOutcome r.2)

/-- Models `DataExtractor::readOdometry`: clear, open
`<dataset>/Robot<id+1>_Odometry.dat`, repopulate. -/
def readOdometry (fs : FS) (st : State) (robot_id : Nat) : State × Outcome :=
  match fs.file (st.dataset ++ "/Robot" ++ toString (robot_id + 1) ++ "_Odometry.dat") with
  | none =>
    ({ st with robots := updR st.robots robot_id (fun r => { r with raw := { r.raw with odometry := [] } }) }, Outcome.failed Err.fileNotFound)
  | some ls =>
    let r := readOdometryLines ls []
    ({ st with robots := updR st.robots robot_id (fun rb => { rb with raw := { rb.raw with odometry := r.1 } }) }, mkOutcome r.2)

/-- Models `DataExtractor::readMeasurements`: clear, open
`<dataset>/Robot<id+1>_Measurement.dat`, repopulate with aggregation. -/
def readMeasurements (fs : FS) (st : State) (robot_id : Nat) : State × Outcome :=
  match fs.file (st.dataset ++ "/Robot" ++ toString (robot_id + 1) ++ "_Measurement.dat") with
  | none =>
    ({ st with robots := updR st.robots robot_id (fun r => { r with raw := { r.raw with measurements := [] } }) }, Outcome.failed Err.fileNotFound)
  | some ls =>
    let r := readMeasurementsLines ls []
    ({ st with robots := updR st.robots robot_id (fun rb => { rb with raw := { rb.raw with measurements := r.1 } }) }, mkOutcome r.2)

/-- One load step of `setDataSet`, used to record which sub-loaders a
run actually invoked (and in which order). -/
inductive Step
  | barcodes
  | landmarks
  | groundTruth (i : Nat)
  | odometry (i : Nat)
  | measurements (i : Nat)
deriving DecidableEq

/-- The `for (int i = 0; i < TOTAL_ROBOTS; i++)` loop of `setDataSet`:
`n` robots remaining, current index `i`, the three `&=`-accumulated
flags. A thrown exception aborts the loop (and `setDataSet`); a
`false` return only clears the matching flag. Returns the final state,
either the escaped error or the three flags, and the invoked steps. -/
def robotLoop (fs : FS) : Nat → Nat → State → Bool → Bool → Bool → State × Except Err (Bool × Bool × Bool) × List Step
  | 0, _, st, g, o, m => (st, Except.ok (g, o, m), [])
  | Nat.succ n, i, st, g, o, m =>
    let rg := readGroundTruth fs st i
    match rg.2 with
    | Outcome.thrown e => (rg.1, Except.error e, [Step.groundTruth i])
    | _ =>
      let ro := readOdometry fs rg.1 i
      match ro.2 with
      | Outcome.thrown e => (ro.1, Except.error e, [Step.groundTruth i, Step.odometry i])
      | _ =>
        let rm := readMeasurements fs ro.1 i
        match rm.2 with
        | Outcome.thrown e => (rm.1, Except.error e, [Step.groundTruth i, Step.odometry i, Step.measurements i])
        | _ =>
          let rest := robotLoop fs n (i + 1) rm.1 (g && rg.2.isOk) (o && ro.2.isOk) (m && rm.2.isOk)
          (rest.1, rest.2.1, Step.groundTruth i :: Step.odometry i :: Step.measurements i :: rest.2.2)

/-- Models `DataExtractor::setDataSet`: calls `stat` on the directory (throwing
`PathNotFound` without touching anything when it is missing), store
`dataset_`, then invoke `readBarcodes`, `readLandmarks` and the robot
loop unconditionally in that order — a loader returning `false`
only clears its flag, while an escaping exception aborts the sequence
— and finally throw `extractionFailed` unless every flag is set.
Besides the mutated state and the outcome it returns the list of
sub-loader invocations actually performed. -/
def setDataSet (fs : FS) (dataset : String) (st : State) : State × Outcome × List Step :=
  if fs.dirExists dataset then
    let rb := readBarcodes fs { st with dataset := dataset }
    match rb.2 with
    | Outcome.thrown e => (rb.1, Outcome.thrown e, [Step.barcodes])
    | _ =>
      let rl := readLandmarks fs rb.1
      match rl.2 with
      | Outcome.thrown e => (rl.1, Outcome.thrown e, [Step.barcodes, Step.landmarks])
      | _ =>
        let lp := robotLoop fs TOTAL_ROBOTS 0 rl.1 true true true
        match lp.2.1 with
        | Except.error e => (lp.1, Outcome.thrown e, Step.barcodes :: Step.landmarks :: lp.2.2)
        | Except.ok gom =>
          (lp.1,
            if rb.2.isOk && rl.2.isOk && gom.1 && gom.2.1 && gom.2.2 then Outcome.ok
            else Outcome.thrown Err.extractionFailed,
            Step.barcodes :: Step.landmarks :: lp.2.2)
  else (st, Outcome.thrown Err.pathNotFound, [])

/-- Models `DataExtractor::getBarcodes`: throws (`UninitializedAccess`) iff
`dataset_` is still empty; otherwise hands out the barcode array. -/
def getBarcodes (st : State) : Except Err (List Int) :=
  if st.dataset = "" then Except.error Err.uninitializedAccess else Except.ok st.barcodes

/-- Models `DataExtractor::getLandmarks`: same gate, landmark table. -/
def getLandmarks (st : State) : Except Err (List Landmark) :=
  if st.dataset = "" then Except.error Err.uninitializedAccess else Except.ok st.landmarks

/-- Models `DataExtractor::getRobots`: same gate, robot array. -/
def getRobots (st : State) : Except Err (List Robot) :=
  if st.dataset = "" then Except.error Err.uninitializedAccess else Except.ok st.robots

/-- Models `DataExtractor::setSamplePeriod`: unimplemented stub. -/
def setSamplePeriod (_sample_period : ℚ) : Bool := false

/-- Models `DataExtractor::syncData`: calls the stub and reports failure. -/
def syncData (sample_period : ℚ) : Bool :=
  let _ := setSamplePeriod sample_period
  false

/-- The measurement aggregation as the specification words it: walk the
already-aggregated sequence in insertion order; the first record whose
stored time lies within the inclusive window `[t - 0.05, t + 0.05]`
absorbs the sighting into its parallel lists with its own time left
unchanged; without a match the reading starts a fresh record at the
end. Stated with the ordinary `ℚ` operations. -/
def specInsert (ms : List Measurement) (t : ℚ) (s : Int) (r b : ℚ) : List Measurement :=
  match ms with
  | [] => [Measurement.single t s r b]
  | m :: rest =>
    if t - mkRat 5 100 ≤ m.time ∧ m.time ≤ t + mkRat 5 100 then appendSighting m s r b :: rest
    else m :: specInsert rest t s r b

/-- Aggregation of a whole sequence of parsed measurement rows
`(time, subject, range, bearing)`, exactly as the line loop of
`readMeasurements` folds them into the (initially cleared) sequence. -/
def aggregateRows (rows : List (ℚ × Int × ℚ × ℚ)) : List Measurement :=
  rows.foldl (fun ms row => insertMeasurement ms row.1 row.2.1 row.2.2.1 row.2.2.2) []

theorem inWindow_iff (rt t : ℚ) :
    inWindow rt t = true ↔ t - mkRat 5 100 ≤ rt ∧ rt ≤ t + mkRat 5 100 := by
  unfold inWindow
  rw [Bool.and_eq_true, decide_eq_true_eq, decide_eq_true_eq, qsub_eq, qadd_eq]

theorem insertMeasurement_eq_specInsert (ms : List Measurement) (t : ℚ) (s : Int) (r b : ℚ) :
    insertMeasurement ms t s r b = specInsert ms t s r b := by
  induction ms with
  | nil => rfl
  | cons m rest ih =>
    unfold insertMeasurement specInsert
    rw [List.findIdx?_cons]
    by_cases h : inWindow m.time t = true
    · rw [if_pos h, if_pos ((inWindow_iff m.time t).mp h)]
      rfl
    · rw [if_neg h, if_neg (fun hw => h ((inWindow_iff m.time t).mpr hw))]
      cases hf : rest.findIdx? (fun m => inWindow m.time t) with
      | none =>
        rw [← ih]
        simp [insertMeasurement, hf, List.findIdx?_succ]
      | some j =>
        rw [← ih]
        simp [insertMeasurement, hf, List.findIdx?_succ, modifyAt]

/-- C1: every parsed measurement row `(t, subject, range, bearing)` is
merged into the first record (in insertion order) of the aggregated
sequence whose stored time lies in the inclusive window
`[t - 0.05, t + 0.05]`, by appending to that record's parallel lists
without touching its stored time, and starts a fresh singleton record
otherwise; in particular rows at times 10.00, 10.03, 10.20 with
subjects 1, 2, 3 yield exactly two records — one at time 10.00 with
subjects `[1, 2]` and one at time 10.20 with subject `[3]`. -/
theorem claim_C1 :
    (∀ (ms : List Measurement) (t : ℚ) (s : Int) (r b : ℚ),
      insertMeasurement ms t s r b = specInsert ms t s r b)
    ∧ aggregateRows
        [(10, 1, mkRat 1 2, mkRat 1 4), (mkRat 1003 100, 2, mkRat 3 2, mkRat 3 4),
          (mkRat 102 10, 3, mkRat 5 2, mkRat 5 4)]
      = [{ time := 10, subjects := [1, 2], ranges := [mkRat 1 2, mkRat 3 2],
            bearings := [mkRat 1 4, mkRat 3 4] },
          { time := mkRat 102 10, subjects := [3], ranges := [mkRat 5 2],
            bearings := [mkRat 5 4] }] :=
  ⟨insertMeasurement_eq_specInsert, by decide⟩

/-- C9 (counterexample): not all whitespace is stripped before field
extraction — a carriage return (a whitespace character and not the tab
delimiter) survives the stripping of the line `"1\r"`. -/
theorem claim_C9_cex :
    '\r' ∈ removeSpaces ['1', '\r'] ∧ isCppSpace '\r' = true ∧ '\r' ≠ '\t' := by decide

/-- C9 (amended): the pre-parse stripping erases exactly the plain
space character `' '`: a character survives it iff it occurs in the
line and is not a space. Tabs (the delimiters) and all other
whitespace, carriage returns included, are left in place. -/
theorem claim_C9_amended (l : Line) (c : Char) :
    c ∈ removeSpaces l ↔ c ∈ l ∧ c ≠ ' ' := by
  unfold removeSpaces
  rw [List.mem_filter]
  simp

/-- An `FS` whose dataset directory exists but in which no file opens. -/
def fsAllMissing : FS := { dirExists := fun _ => true, file := fun _ => none }

/-- An `FS` in which the dataset directory itself is missing. -/
def fsNoDir : FS := { dirExists := fun _ => false, file := fun _ => none }

theorem readBarcodes_dataset (fs : FS) (st : State) :
    (readBarcodes fs st).1.dataset = st.dataset := by
  unfold readBarcodes
  split
  · rfl
  · split <;> rfl

theorem readLandmarks_dataset (fs : FS) (st : State) :
    (readLandmarks fs st).1.dataset = st.dataset := by
  unfold readLandmarks
  split <;> rfl

theorem readGroundTruth_dataset (fs : FS) (st : State) (i : Nat) :
    (readGroundTruth fs st i).1.dataset = st.dataset := by
  unfold readGroundTruth
  split <;> rfl

theorem readOdometry_dataset (fs : FS) (st : State) (i : Nat) :
    (readOdometry fs st i).1.dataset = st.dataset := by
  unfold readOdometry
  split <;> rfl

theorem readMeasurements_dataset (fs : FS) (st : State) (i : Nat) :
    (readMeasurements fs st i).1.dataset = st.dataset := by
  unfold readMeasurements
  split <;> rfl

theorem robotLoop_dataset (fs : FS) :
    ∀ (n i : Nat) (st : State) (g o m : Bool),
      (robotLoop fs n i st g o m).1.dataset = st.dataset := by
  intro n
  induction n with
  | zero => intro i st g o m; rfl
  | succ n ih =>
    intro i st g o m
    simp only [robotLoop]
    split
    · rw [readGroundTruth_dataset]
    · split
      · rw [readOdometry_dataset, readGroundTruth_dataset]
      · split
        · rw [readMeasurements_dataset, readOdometry_dataset, readGroundTruth_dataset]
        · rw [ih, readMeasurements_dataset, readOdometry_dataset, readGroundTruth_dataset]

theorem setDataSet_dataset (fs : FS) (path : String) (st : State)
    (h : fs.dirExists path = true) :
    (setDataSet fs path st).1.dataset = path := by
  unfold setDataSet
  simp only [h, if_true]
  split
  · rw [readBarcodes_dataset]
  · split
    · rw [readLandmarks_dataset, readBarcodes_dataset]
    · split <;> rw [robotLoop_dataset, readLandmarks_dataset, readBarcodes_dataset]

/-- C2 (counterexample): a load that was attempted and failed after the
dataset path was validated (directory exists, no file opens, so
`setDataSet` ends in the `extractionFailed` throw) leaves an extractor
object on which all three accessors return data instead of failing
with `UninitializedAccess`. -/
theorem claim_C2_cex :
    (setDataSet fsAllMissing "ds" initState).2.1 = Outcome.thrown Err.extractionFailed
    ∧ getBarcodes (setDataSet fsAllMissing "ds" initState).1
        = Except.ok (List.replicate TOTAL_BARCODES 0)
    ∧ getLandmarks (setDataSet fsAllMissing "ds" initState).1 = Except.ok []
    ∧ getRobots (setDataSet fsAllMissing "ds" initState).1
        = Except.ok (List.replicate TOTAL_ROBOTS Robot.empty) := by decide

/-- C2 (amended): the accessor gate tests only whether a dataset path
has been stored, not whether any load succeeded: each of the three
accessors fails with `UninitializedAccess` exactly when `dataset_` is
still empty (so before any `setDataSet` call that passed the existence
check, as on a fresh extractor) and returns its table otherwise — and
any `setDataSet` call on an existing directory stores that path, even
when the subsequent loading fails. -/
theorem claim_C2_amended :
    (∀ st : State,
      getBarcodes st
          = (if st.dataset = "" then Except.error Err.uninitializedAccess else Except.ok st.barcodes)
      ∧ getLandmarks st
          = (if st.dataset = "" then Except.error Err.uninitializedAccess else Except.ok st.landmarks)
      ∧ getRobots st
          = (if st.dataset = "" then Except.error Err.uninitializedAccess else Except.ok st.robots))
    ∧ getBarcodes initState = Except.error Err.uninitializedAccess
    ∧ getLandmarks initState = Except.error Err.uninitializedAccess
    ∧ getRobots initState = Except.error Err.uninitializedAccess
    ∧ ∀ (fs : FS) (path : String) (st : State), fs.dirExists path = true →
        (setDataSet fs path st).1.dataset = path :=
  ⟨fun _ => ⟨rfl, rfl, rfl⟩, by decide, by decide, by decide,
    fun fs path st h => setDataSet_dataset fs path st h⟩

/-- Closes the hypotheses of `claim_C2_amended` on concrete input:
the path-validated failed load of `claim_C2_cex` stores the path. -/
theorem claim_C2_amended_witness :
    (setDataSet fsAllMissing "ds" initState).1.dataset = "ds" :=
  claim_C2_amended.2.2.2.2 fsAllMissing "ds" initState rfl

/-- C8: when the dataset directory does not exist, `setDataSet` throws
`PathNotFound` at once: the state (tables and stored path alike) is
returned untouched and no sub-loader is invoked (empty step trace). -/
theorem claim_C8 (fs : FS) (path : String) (st : State)
    (h : fs.dirExists path = false) :
    setDataSet fs path st = (st, Outcome.thrown Err.pathNotFound, []) := by
  unfold setDataSet
  simp [h]

/-- Witness: `claim_C8` at a concrete missing directory. -/
theorem claim_C8_witness :
    setDataSet fsNoDir "missing" initState = (initState, Outcome.thrown Err.pathNotFound, []) :=
  claim_C8 fsNoDir "missing" initState rfl

/-- C10: each per-robot sub-loader clears its target sequence before
trying to open its file, so when the file cannot be opened it returns
failure with that robot's sequence left empty — whatever the sequence
held before the call is gone. -/
theorem claim_C10 (fs : FS) (st : State) (i : Nat)
    (hg : fs.file (st.dataset ++ "/Robot" ++ toString (i + 1) ++ "_Groundtruth.dat") = none)
    (ho : fs.file (st.dataset ++ "/Robot" ++ toString (i + 1) ++ "_Odometry.dat") = none)
    (hm : fs.file (st.dataset ++ "/Robot" ++ toString (i + 1) ++ "_Measurement.dat") = none) :
    readGroundTruth fs st i
      = ({ st with robots := updR st.robots i (fun r => { r with raw := { r.raw with ground_truth := [] } }) }, Outcome.failed Err.fileNotFound)
    ∧ readOdometry fs st i
      = ({ st with robots := updR st.robots i (fun r => { r with raw := { r.raw with odometry := [] } }) }, Outcome.failed Err.fileNotFound)
    ∧ readMeasurements fs st i
      = ({ st with robots := updR st.robots i (fun r => { r with raw := { r.raw with measurements := [] } }) }, Outcome.failed Err.fileNotFound) := by
  refine ⟨?_, ?_, ?_⟩
  · unfold readGroundTruth
    rw [hg]
  · unfold readOdometry
    rw [ho]
  · unfold readMeasurements
    rw [hm]

/-- A state that already holds one ground-truth sample for robot 0,
as left behind by an earlier successful load. -/
def stPrior : State :=
  { dataset := "ds", barcodes := List.replicate TOTAL_BARCODES 0, landmarks := [], robots := updR (List.replicate TOTAL_ROBOTS Robot.empty) 0 (fun r => { r with raw := { r.raw with ground_truth := [{ time := 1, x := 2, y := 3, orientation := 0 }] }  }) }

/-- Witness: `claim_C10` on a robot with prior data: a reload attempt against an
`FS` with no openable files fails and leaves robot 0's sequence empty,
not the stale one. -/
theorem claim_C10_witness :
    readGroundTruth fsAllMissing stPrior 0
      = ({ stPrior with robots := updR stPrior.robots 0 (fun r => { r with raw := { r.raw with ground_truth := [] } }) }, Outcome.failed Err.fileNotFound) :=
  (claim_C10 fsAllMissing stPrior 0 rfl rfl rfl).1

theorem updR_updR (rs : List Robot) (i : Nat) (f g : Robot → Robot) :
    updR (updR rs i f) i g = updR rs i (fun r => g (f r)) := by
  induction rs generalizing i with
  | nil => rfl
  | cons r rest ih =>
    cases i with
    | zero => rfl
    | succ n => simp only [updR, ih]

/-- C7: each per-robot sub-loader clears its target sequence before
repopulating it, so running the same sub-loader twice in succession on
the same input produces exactly the state and outcome of running it
once — reload is idempotent, never additive. -/
theorem claim_C7 (fs : FS) (st : State) (i : Nat) :
    readGroundTruth fs (readGroundTruth fs st i).1 i = readGroundTruth fs st i
    ∧ readOdometry fs (readOdometry fs st i).1 i = readOdometry fs st i
    ∧ readMeasurements fs (readMeasurements fs st i).1 i = readMeasurements fs st i := by
  refine ⟨?_, ?_, ?_⟩
  · cases h : fs.file (st.dataset ++ "/Robot" ++ toString (i + 1) ++ "_Groundtruth.dat") with
    | none => simp [readGroundTruth, h, updR_updR]
    | some ls => simp [readGroundTruth, h, updR_updR]
  · cases h : fs.file (st.dataset ++ "/Robot" ++ toString (i + 1) ++ "_Odometry.dat") with
    | none => simp [readOdometry, h, updR_updR]
    | some ls => simp [readOdometry, h, updR_updR]
  · cases h : fs.file (st.dataset ++ "/Robot" ++ toString (i + 1) ++ "_Measurement.dat") with
    | none => simp [readMeasurements, h, updR_updR]
    | some ls => simp [readMeasurements, h, updR_updR]

/-- C3 (counterexample): a run in which the barcode load fails (its
file does not open) and yet the landmark load is still executed —
`setDataSet` does not guard step 3 on step 2's success indicator. -/
theorem claim_C3_cex :
    (readBarcodes fsAllMissing { initState with dataset := "ds" }).2
        = Outcome.failed Err.fileNotFound
    ∧ Step.landmarks ∈ (setDataSet fsAllMissing "ds" initState).2.2
    ∧ (setDataSet fsAllMissing "ds" initState).2.1 ≠ Outcome.ok := by decide

/-- C3 (amended): `setDataSet` invokes `readLandmarks` unconditionally
after `readBarcodes` returns — in particular whenever the barcode load
merely reports failure with `false`; only an exception escaping the
barcode loader would prevent the landmark load. The ordering
dependency on the barcode table is a data dependency enforced by the
integrity check inside `readLandmarks`, not a control dependency. -/
theorem claim_C3_amended (fs : FS) (path : String) (st : State) (e : Err)
    (hdir : fs.dirExists path = true)
    (hb : (readBarcodes fs { st with dataset := path }).2 = Outcome.failed e) :
    Step.landmarks ∈ (setDataSet fs path st).2.2 := by
  unfold setDataSet
  simp only [hdir, if_true, hb]
  cases hl : (readLandmarks fs (readBarcodes fs { st with dataset := path }).1).2 with
  | thrown e2 => simp
  | ok =>
    cases hlp : (robotLoop fs TOTAL_ROBOTS 0 (readLandmarks fs (readBarcodes fs { st with dataset := path }).1).1 true true true).2.1 <;> simp
  | failed e2 =>
    cases hlp : (robotLoop fs TOTAL_ROBOTS 0 (readLandmarks fs (readBarcodes fs { st with dataset := path }).1).1 true true true).2.1 <;> simp

/-- Witness: `claim_C3_amended` at the concrete run of `claim_C3_cex`. -/
theorem claim_C3_amended_witness :
    Step.landmarks ∈ (setDataSet fsAllMissing "ds" initState).2.2 :=
  claim_C3_amended fsAllMissing "ds" initState Err.fileNotFound rfl (by decide)

theorem ebind_ok {α β : Type} (a : α) (f : α → Except Err β) :
    Bind.bind (Except.ok a) f = f a := rfl

theorem ebind_error {α β : Type} (e : Err) (f : α → Except Err β) :
    Bind.bind (Except.error e) f = Except.error e := rfl

theorem exBind_ok {α β : Type} {x : Except Err α} {f : α → Except Err β} {b : β}
    (h : Bind.bind x f = Except.ok b) : ∃ a, x = Except.ok a ∧ f a = Except.ok b := by
  cases x with
  | ok a => exact ⟨a, rfl, h⟩
  | error e => rw [ebind_error] at h; simp at h

theorem substr_zero (l : Line) (c : Nat) : substr l 0 c = Except.ok (l.take c) := by
  unfold substr
  rw [if_neg (by omega)]
  simp

/-- C5: for a landmark row whose first field parses to the id `k`
(with `k` an in-bounds surface identity), the loader fails with
`IntegrityError` exactly when the barcode array holds `0` at position
`k - 1`; when the row loads, its `barcode` field is that (necessarily
nonzero) array value and the record is appended at the end of the
table, in file order. -/
theorem claim_C5 (bs : List Int) (l2 : Line) (k : Int)
    (hid : stoiE (l2.take (strFind l2 '\t' 0)) = Except.ok k)
    (h1 : 1 ≤ k) (h2 : k ≤ (bs.length : Int)) :
    (arrGet bs (k - 1) = 0 → readLandmarkLine bs l2 = Except.error Err.integrityError)
    ∧ (∀ lm : Landmark, readLandmarkLine bs l2 = Except.ok lm →
        lm.id = k ∧ lm.barcode = arrGet bs (k - 1) ∧ arrGet bs (k - 1) ≠ 0)
    ∧ (∀ (ls : List Line) (i : Nat) (acc : List Landmark) (lraw : Line) (lm : Landmark),
        lraw.head? ≠ some '#' → removeSpaces lraw = l2 → i < TOTAL_LANDMARKS →
        readLandmarkLine bs l2 = Except.ok lm →
        readLandmarksLines bs (lraw :: ls) i acc = readLandmarksLines bs ls (i + 1) (acc ++ [lm])) := by
  refine ⟨?_, ?_, ?_⟩
  · intro h0
    unfold readLandmarkLine
    dsimp only
    rw [substr_zero, ebind_ok, hid, ebind_ok, if_pos h0]
  · intro lm hok
    unfold readLandmarkLine at hok
    dsimp only at hok
    rw [substr_zero, ebind_ok, hid, ebind_ok] at hok
    by_cases h0 : arrGet bs (k - 1) = 0
    · rw [if_pos h0] at hok
      simp at hok
    · rw [if_neg h0] at hok
      obtain ⟨x, _, hok⟩ := exBind_ok hok
      obtain ⟨a, _, hok⟩ := exBind_ok hok
      obtain ⟨x2, _, hok⟩ := exBind_ok hok
      obtain ⟨a2, _, hok⟩ := exBind_ok hok
      obtain ⟨x3, _, hok⟩ := exBind_ok hok
      obtain ⟨a3, _, hok⟩ := exBind_ok hok
      obtain ⟨x4, _, hok⟩ := exBind_ok hok
      obtain ⟨a4, _, hok⟩ := exBind_ok hok
      have : lm = { id := k, barcode := arrGet bs (k - 1), x := a, y := a2, x_std_dev := a3, y_std_dev := a4 } := by
        cases hok
        rfl
      rw [this]
      exact ⟨rfl, rfl, h0⟩
  · intro ls i acc lraw lm hhead hstrip hi hok
    conv_lhs => unfold readLandmarksLines
    rw [if_neg hhead, hstrip, if_neg (by omega : ¬ TOTAL_LANDMARKS ≤ i), hok]

/-- The barcode table of the worked example: positions 0 and 1 hold 10
and 20, the rest is unloaded. -/
def exTable : List Int := ((List.replicate TOTAL_BARCODES (0 : Int)).set 0 10).set 1 20

/-- The stripped landmark row `1\t2.0\t3.0\t0.1\t0.1`. -/
def exLandmarkRow : Line := "1\t2.0\t3.0\t0.1\t0.1".toList

/-- A barcode row in the shape the code actually consumes: not a
comment, and the text after its first tab parses to the value `v`. -/
def wfBarcodeRow (l : Line) (v : Int) : Prop :=
  l.head? ≠ some '#' ∧ barcodeOfLine (removeSpaces l) = Except.ok v

instance (l : Line) (v : Int) : Decidable (wfBarcodeRow l v) := by
  unfold wfBarcodeRow
  exact instDecidableAnd

theorem set_append_length (xs ys : List Int) (v : Int) :
    (xs ++ ys).set xs.length v = xs ++ ys.set 0 v := by
  induction xs with
  | nil => rfl
  | cons x xs ih => simp [List.set, ih]

theorem readBarcodesLines_wf :
    ∀ (lines : List Line) (vs : List Int), List.Forall₂ wfBarcodeRow lines vs →
      ∀ done : List Int, done.length + vs.length ≤ TOTAL_BARCODES →
        readBarcodesLines lines done.length (done ++ List.replicate (TOTAL_BARCODES - done.length) 0)
          = (done ++ vs ++ List.replicate (TOTAL_BARCODES - done.length - vs.length) 0, Except.ok ()) := by
  intro lines vs h
  induction h with
  | nil =>
    intro done hlen
    simp [readBarcodesLines]
  | @cons l v ls vs hpair hrest ih =>
    intro done hlen
    obtain ⟨hhead, hparse⟩ := hpair
    simp only [List.length_cons] at hlen
    conv_lhs => unfold readBarcodesLines
    rw [if_neg hhead, if_neg (by omega : ¬ TOTAL_BARCODES ≤ done.length), hparse]
    have hrep : List.replicate (TOTAL_BARCODES - done.length) (0 : Int)
        = 0 :: List.replicate (TOTAL_BARCODES - done.length - 1) 0 := by
      rw [← List.replicate_succ]
      congr 1
      omega
    have h2 := ih (done ++ [v]) (by simp; omega)
    rw [List.length_append] at h2
    simp only [List.length_singleton, List.append_assoc, List.singleton_append] at h2
    show readBarcodesLines ls (done.length + 1)
        ((done ++ List.replicate (TOTAL_BARCODES - done.length) 0).set done.length v) = _
    rw [hrep, set_append_length]
    show readBarcodesLines ls (done.length + 1)
        (done ++ v :: List.replicate (TOTAL_BARCODES - done.length - 1) 0) = _
    rw [show TOTAL_BARCODES - done.length - 1 = TOTAL_BARCODES - (done.length + 1) from by omega]
    rw [h2]
    simp only [List.cons_append, List.append_assoc, List.singleton_append, List.length_cons]
    rw [show TOTAL_BARCODES - (done.length + 1) - vs.length
        = TOTAL_BARCODES - done.length - (vs.length + 1) from by omega]

/-- C4 (counterexample): for the single-column barcode rows `10`, `20`
that the claim posits, the extraction `stoi(line.substr(line.find('\t')))`
calls `substr(npos)` on the first row (no tab present), which throws
`std::out_of_range` — so the barcode load does not succeed, let alone
leave the table `[10, 20]`. -/
theorem claim_C4_cex :
    (readBarcodesLines ["10".toList, "20".toList] 0 (List.replicate TOTAL_BARCODES 0)).2
      = Except.error Err.outOfRange := by decide

/-- C4 (amended): the barcode source rows carry a leading field and a
tab before the barcode value (as in the shipped `Barcodes.dat`): rows
`1\t10`, `2\t20` produce table entries 10, 20 at positions 0, 1, and
the landmark row `1\t2.0\t3.0\t0.1\t0.1` then loads as
Landmark{id=1, barcode=10, x=2.0, y=3.0, x_std_dev=0.1, y_std_dev=0.1};
in general any source of such well-formed rows, up to capacity, fills
the table in file order with the exact parsed values. -/
theorem claim_C4_amended :
    readBarcodesLines ["1\t10".toList, "2\t20".toList] 0 (List.replicate TOTAL_BARCODES 0)
        = (exTable, Except.ok ())
    ∧ readLandmarksLines exTable [exLandmarkRow] 0 []
        = ([{ id := 1, barcode := 10, x := 2, y := 3, x_std_dev := mkRat 1 10, y_std_dev := mkRat 1 10 }], Except.ok ())
    ∧ (∀ (lines : List Line) (vs : List Int), List.Forall₂ wfBarcodeRow lines vs →
        vs.length ≤ TOTAL_BARCODES →
        readBarcodesLines lines 0 (List.replicate TOTAL_BARCODES 0)
          = (vs ++ List.replicate (TOTAL_BARCODES - vs.length) 0, Except.ok ())) := by
  refine ⟨by decide, by decide, ?_⟩
  intro lines vs h hlen
  have h0 := readBarcodesLines_wf lines vs h [] (by simpa using hlen)
  simpa using h0

/-- Witness: the general clause of `claim_C4_amended` at a concrete one-row source. -/
theorem claim_C4_amended_witness :
    readBarcodesLines ["5\t7".toList] 0 (List.replicate TOTAL_BARCODES 0)
      = ([7] ++ List.replicate (TOTAL_BARCODES - 1) 0, Except.ok ()) :=
  claim_C4_amended.2.2 ["5\t7".toList] [7] (by decide) (by decide)

/-- Witness: `claim_C5` instantiated on the worked example row: id 1 resolves
through position 0 of the loaded table. -/
theorem claim_C5_witness :
    (arrGet exTable 0 = 0 → readLandmarkLine exTable exLandmarkRow = Except.error Err.integrityError)
    ∧ (∀ lm : Landmark, readLandmarkLine exTable exLandmarkRow = Except.ok lm →
        lm.id = 1 ∧ lm.barcode = arrGet exTable 0 ∧ arrGet exTable 0 ≠ 0)
    ∧ (∀ (ls : List Line) (i : Nat) (acc : List Landmark) (lraw : Line) (lm : Landmark),
        lraw.head? ≠ some '#' → removeSpaces lraw = exLandmarkRow → i < TOTAL_LANDMARKS →
        readLandmarkLine exTable exLandmarkRow = Except.ok lm →
        readLandmarksLines exTable (lraw :: ls) i acc = readLandmarksLines exTable ls (i + 1) (acc ++ [lm])) :=
  claim_C5 exTable exLandmarkRow 1 (by decide) (by decide) (by decide)

theorem barcodeOfLine_ne_capacity (l2 : Line) :
    barcodeOfLine l2 ≠ Except.error Err.capacityExceeded := by
  unfold barcodeOfLine
  cases hs : substr l2 (strFind l2 '\t' 0) npos with
  | error e =>
    have he : e = Err.outOfRange := by
      unfold substr at hs
      split at hs
      · cases hs
        rfl
      · cases hs
    subst he
    intro hcon
    rw [show ((Except.error Err.outOfRange : Except Err Line).bind stoiE)
        = (Except.error Err.outOfRange : Except Err Int) from rfl] at hcon
    cases hcon
  | ok f =>
    show stoiE f ≠ Except.error Err.capacityExceeded
    unfold stoiE
    dsimp only
    split <;> simp

theorem readBarcodesLines_overflow (nxt : Line) (rest : List Line) (hh : nxt.head? ≠ some '#') :
    ∀ (good : List Line) (vs : List Int), List.Forall₂ wfBarcodeRow good vs →
      ∀ (i : Nat) (bs : List Int), i + vs.length = TOTAL_BARCODES →
        (readBarcodesLines (good ++ nxt :: rest) i bs).2 = Except.error Err.capacityExceeded := by
  intro good vs h
  induction h with
  | nil =>
    intro i bs hi
    simp only [List.length_nil, Nat.add_zero] at hi
    simp only [List.nil_append]
    unfold readBarcodesLines
    rw [if_neg hh, if_pos (by omega : TOTAL_BARCODES ≤ i)]
  | @cons l v ls vs hpair hrest ih =>
    intro i bs hi
    obtain ⟨hhead, hparse⟩ := hpair
    simp only [List.length_cons] at hi
    simp only [List.cons_append]
    conv_lhs => unfold readBarcodesLines
    rw [if_neg hhead, if_neg (by omega : ¬ TOTAL_BARCODES ≤ i), hparse]
    exact ih (i + 1) (bs.set i v) (by omega)

/-- Number of non-comment lines of a file (the rows the barcode loop
actually stores). -/
def countNonComment : List Line → Nat
  | [] => 0
  | l :: ls => (if l.head? = some '#' then 0 else 1) + countNonComment ls

theorem readBarcodesLines_no_capacity :
    ∀ (lines : List Line) (i : Nat) (bs : List Int),
      i + countNonComment lines ≤ TOTAL_BARCODES →
      (readBarcodesLines lines i bs).2 ≠ Except.error Err.capacityExceeded := by
  intro lines
  induction lines with
  | nil =>
    intro i bs h
    simp [readBarcodesLines]
  | cons l ls ih =>
    intro i bs h
    unfold countNonComment at h
    by_cases hc : l.head? = some '#'
    · rw [if_pos hc] at h
      unfold readBarcodesLines
      rw [if_pos hc]
      exact ih i bs (by omega)
    · rw [if_neg hc] at h
      unfold readBarcodesLines
      rw [if_neg hc, if_neg (by omega : ¬ TOTAL_BARCODES ≤ i)]
      cases hp : barcodeOfLine (removeSpaces l) with
      | error e =>
        have hne := barcodeOfLine_ne_capacity (removeSpaces l)
        rw [hp] at hne
        simpa using hne
      | ok v =>
        exact ih (i + 1) (bs.set i v) (by omega)

theorem setDataSet_fails_of_barcodes_failed (fs : FS) (path : String) (st : State) (e : Err)
    (hdir : fs.dirExists path = true)
    (hb : (readBarcodes fs { st with dataset := path }).2 = Outcome.failed e) :
    (setDataSet fs path st).2.1 ≠ Outcome.ok := by
  unfold setDataSet
  simp only [hdir, if_true, hb]
  cases hl : (readLandmarks fs (readBarcodes fs { st with dataset := path }).1).2 with
  | thrown e2 => simp
  | ok =>
    cases hlp : (robotLoop fs TOTAL_ROBOTS 0 (readLandmarks fs (readBarcodes fs { st with dataset := path }).1).1 true true true).2.1 <;>
      simp [Outcome.isOk]
  | failed e2 =>
    cases hlp : (robotLoop fs TOTAL_ROBOTS 0 (readLandmarks fs (readBarcodes fs { st with dataset := path }).1).1 true true true).2.1 <;>
      simp [Outcome.isOk]

/-- C6 (counterexample): a barcode source of `TOTAL_BARCODES + 1`
non-comment rows in the single-column format the spec describes (row
text `10`) makes the load fail — but with the `std::out_of_range` of
`substr(npos)` on its very first row, not with `CapacityExceeded`. -/
theorem claim_C6_cex :
    (readBarcodesLines (List.replicate (TOTAL_BARCODES + 1) ("10".toList)) 0
        (List.replicate TOTAL_BARCODES 0)).2 = Except.error Err.outOfRange
    ∧ countNonComment (List.replicate (TOTAL_BARCODES + 1) ("10".toList)) = TOTAL_BARCODES + 1
    ∧ Err.outOfRange ≠ Err.capacityExceeded := by decide

/-- C6 (amended): for a barcode source in the format the code consumes
(two-column rows): when the first `TOTAL_BARCODES` non-comment rows
are well-formed and at least one further non-comment row follows, the
load fails with `CapacityExceeded`; a source with at most
`TOTAL_BARCODES` non-comment rows never yields `CapacityExceeded`;
and whenever the barcode load reports failure, the whole
`setDataSet` operation fails. -/
theorem claim_C6_amended :
    (∀ (good : List Line) (vs : List Int) (nxt : Line) (rest : List Line),
        List.Forall₂ wfBarcodeRow good vs → vs.length = TOTAL_BARCODES → nxt.head? ≠ some '#' →
        (readBarcodesLines (good ++ nxt :: rest) 0 (List.replicate TOTAL_BARCODES 0)).2
          = Except.error Err.capacityExceeded)
    ∧ (∀ (lines : List Line) (bs : List Int),
        countNonComment lines ≤ TOTAL_BARCODES →
        (readBarcodesLines lines 0 bs).2 ≠ Except.error Err.capacityExceeded)
    ∧ (∀ (fs : FS) (path : String) (st : State) (e : Err),
        fs.dirExists path = true →
        (readBarcodes fs { st with dataset := path }).2 = Outcome.failed e →
        (setDataSet fs path st).2.1 ≠ Outcome.ok) :=
  ⟨fun good vs nxt rest h hlen hh =>
      readBarcodesLines_overflow nxt rest hh good vs h 0 (List.replicate TOTAL_BARCODES 0) (by omega),
    fun lines bs h => readBarcodesLines_no_capacity lines 0 bs (by omega),
    fun fs path st e hdir hb => setDataSet_fails_of_barcodes_failed fs path st e hdir hb⟩

/-- Witness: `claim_C6_amended` at concrete inputs: 21 two-column rows overflow
with `CapacityExceeded`, one row does not, and the failed barcode load
of `fsAllMissing` sinks the whole `setDataSet`. -/
theorem claim_C6_amended_witness :
    (readBarcodesLines (List.replicate TOTAL_BARCODES ("3\t7".toList) ++ ["3\t7".toList]) 0
        (List.replicate TOTAL_BARCODES 0)).2 = Except.error Err.capacityExceeded
    ∧ (readBarcodesLines ["3\t7".toList] 0 (List.replicate TOTAL_BARCODES 0)).2
        ≠ Except.error Err.capacityExceeded
    ∧ (setDataSet fsAllMissing "ds" initState).2.1 ≠ Outcome.ok :=
  ⟨claim_C6_amended.1 (List.replicate TOTAL_BARCODES ("3\t7".toList))
      (List.replicate TOTAL_BARCODES 7) ("3\t7".toList) [] (by decide) (by decide) (by decide),
    claim_C6_amended.2.1 ["3\t7".toList] (List.replicate TOTAL_BARCODES 0) (by decide),
    claim_C6_amended.2.2 fsAllMissing "ds" initState Err.fileNotFound rfl (by decide)⟩

end DataExtractor
